import Mathlib

/-!
Verification development for the router repository (src/rust/src).
Each component is shallow-embedded: pure Rust functions become Lean
functions; stateful methods become explicit state-passing functions;
machine integers are Nat with explicit wrap-around (% 2 ^ w) where the
Rust code can overflow; wall-clock reads (Instant::now, SystemTime::now)
become explicit time parameters; fallible code returns Except or Option.
-/

/-! ## Association-list model of std::collections::HashMap

HashMap iteration order is arbitrary in Rust; we fix insertion order.
All theorems below are insensitive to iteration order (ties between
equal-metric routes are never relied upon).
-/

def assocGet {β : Type} : List (String × β) → String → Option β
  | [], _ => none
  | (k, v) :: rest, key => if k = key then some v else assocGet rest key

def assocInsert {β : Type} : List (String × β) → String → β → List (String × β)
  | [], key, val => [(key, val)]
  | (k, v) :: rest, key, val =>
      if k = key then (key, val) :: rest else (k, v) :: assocInsert rest key val

def assocRemove {β : Type} : List (String × β) → String → List (String × β)
  | [], _ => []
  | (k, v) :: rest, key => if k = key then rest else (k, v) :: assocRemove rest key

/-- Models mutating the value in place through HashMap::get_mut. -/
def assocUpdate {β : Type} (l : List (String × β)) (key : String) (f : β → β) :
    List (String × β) :=
  l.map (fun kv => if kv.1 = key then (kv.1, f kv.2) else kv)

/-! ## IP address parsing (std::net::IpAddr::from_str)

The textual forms used by routing_table.rs. IPv4 follows the Rust std
grammar (four decimal octets, 0..=255, no leading zeros). IPv6 handles
the full 8-group hexadecimal form and the :: compression; the
IPv4-embedded tail form is not modelled (no claim exercises IPv6 text).
-/

def splitOnChar (c : Char) : List Char → List (List Char)
  | [] => [[]]
  | x :: rest =>
    let r := splitOnChar c rest
    if x = c then [] :: r
    else
      match r with
      | h :: t => (x :: h) :: t
      | [] => [[x]]

def digitsToNat (cs : List Char) : Nat :=
  cs.foldl (fun a c => a * 10 + (c.toNat - 48)) 0

/-- One IPv4 octet per the Rust std parser: decimal, no leading zeros, at most 255. -/
def parseIpv4Octet (cs : List Char) : Option Nat :=
  match cs with
  | [] => none
  | ['0'] => some 0
  | '0' :: _ :: _ => none
  | _ =>
      if cs.all Char.isDigit then
        let v := digitsToNat cs
        if v ≤ 255 then some v else none
      else none

def parseIpv4 (cs : List Char) : Option Nat :=
  match (splitOnChar '.' cs).mapM parseIpv4Octet with
  | some [a, b, c, d] => some (((a * 256 + b) * 256 + c) * 256 + d)
  | _ => none

def hexVal (c : Char) : Option Nat :=
  if '0' ≤ c ∧ c ≤ '9' then some (c.toNat - 48)
  else if 'a' ≤ c ∧ c ≤ 'f' then some (c.toNat - 87)
  else if 'A' ≤ c ∧ c ≤ 'F' then some (c.toNat - 55)
  else none

def parseHexGroup (cs : List Char) : Option Nat :=
  if cs.length = 0 ∨ 4 < cs.length then none
  else cs.foldlM (fun acc c => (hexVal c).map (fun v => acc * 16 + v)) 0

/-- Splits at the first occurrence of a double colon, if any. -/
def splitDoubleColon : List Char → Option (List Char × List Char)
  | [] => none
  | ':' :: ':' :: rest => some ([], rest)
  | c :: rest =>
      match splitDoubleColon rest with
      | some (l, r) => some (c :: l, r)
      | none => none

def parseGroupList (cs : List Char) : Option (List Nat) :=
  if cs = [] then some []
  else (splitOnChar ':' cs).mapM parseHexGroup

def groupBytes (g : Nat) : List Nat := [g / 256, g % 256]

def parseIpv6 (cs : List Char) : Option (List Nat) :=
  match splitDoubleColon cs with
  | none =>
      match (splitOnChar ':' cs).mapM parseHexGroup with
      | some gs => if gs.length = 8 then some (gs.map groupBytes).flatten else none
      | none => none
  | some (l, r) =>
      match parseGroupList l, parseGroupList r with
      | some gl, some gr =>
          if gl.length + gr.length ≤ 7 then
            some (((gl ++ List.replicate (8 - gl.length - gr.length) 0) ++ gr).map
              groupBytes).flatten
          else none
      | _, _ => none

/-- std::net::IpAddr: a parsed IPv4 address as its u32 value, or a parsed
IPv6 address as its 16 octets. -/
inductive IpAddr : Type
  | v4 (addr : Nat)
  | v6 (octets : List Nat)
deriving DecidableEq

def IpAddr.from_chars (cs : List Char) : Option IpAddr :=
  match parseIpv4 cs with
  | some v => some (IpAddr.v4 v)
  | none =>
      match parseIpv6 cs with
      | some bytes => some (IpAddr.v6 bytes)
      | none => none

def IpAddr.from_str (s : String) : Option IpAddr :=
  IpAddr.from_chars s.data

/-- str::parse::<u8> : optional leading plus sign, decimal digits, at most 255. -/
def parseU8 (cs : List Char) : Option Nat :=
  let ds := match cs with
    | '+' :: rest => rest
    | _ => cs
  match ds with
  | [] => none
  | _ =>
      if ds.all Char.isDigit then
        let v := digitsToNat ds
        if v ≤ 255 then some v else none
      else none

/-! ## lib.rs : Route -/

structure Route where
  destination : String
  gateway : String
  interface : String
  prefix_length : Nat
  metric : Nat
  protocol : String
  is_active : Bool
deriving DecidableEq

/-- Route::new — sets is_active to true. -/
def Route.new (destination gateway interface : String) (prefix_length metric : Nat)
    (protocol : String) : Route :=
  { destination := destination, gateway := gateway, interface := interface,
    prefix_length := prefix_length, metric := metric, protocol := protocol,
    is_active := true }

/-! ## routing_table.rs : RoutingTable -/

structure RoutingTable where
  routes : List (String × Route)
  protocol_counts : List (String × Nat)
  interface_counts : List (String × Nat)
  last_update : Nat
  total_updates : Nat
deriving DecidableEq

def RoutingTable.new : RoutingTable :=
  { routes := [], protocol_counts := [], interface_counts := [],
    last_update := 0, total_updates := 0 }

/-- RoutingTable::validate_route (&self is unused by the Rust body). -/
def RoutingTable.validate_route (route : Route) : Except String Unit :=
  if route.destination = "" then Except.error "Destination cannot be empty"
  else if route.gateway = "" then Except.error "Gateway cannot be empty"
  else if route.interface = "" then Except.error "Interface cannot be empty"
  else if 128 < route.prefix_length then Except.error "Prefix length cannot exceed 128"
  else if route.protocol = "" then Except.error "Protocol cannot be empty"
  else Except.ok ()

/-- Models `*map.entry(key).or_insert(0) += 1`. -/
def bumpCount (l : List (String × Nat)) (key : String) : List (String × Nat) :=
  match assocGet l key with
  | some c => assocInsert l key (c + 1)
  | none => assocInsert l key 1

/-- Models the remove_route count update: decrement, and drop the entry
when it reaches zero. -/
def decCount (l : List (String × Nat)) (key : String) : List (String × Nat) :=
  match assocGet l key with
  | some c => if c - 1 = 0 then assocRemove l key else assocInsert l key (c - 1)
  | none => l

/-- RoutingTable::add_route. `now` is the SystemTime::now() reading used by
update_timestamp. Returns the Rust Result together with the post-state. -/
def RoutingTable.add_route (tbl : RoutingTable) (route : Route) (now : Nat) :
    Except String Unit × RoutingTable :=
  match RoutingTable.validate_route route with
  | Except.error e => (Except.error e, tbl)
  | Except.ok _ =>
      let destination := route.destination
      let old_route := assocGet tbl.routes destination
      let tbl1 := { tbl with routes := assocInsert tbl.routes destination route }
      let tbl2 :=
        if old_route = none then
          { tbl1 with
              protocol_counts := bumpCount tbl1.protocol_counts route.protocol,
              interface_counts := bumpCount tbl1.interface_counts route.interface }
        else tbl1
      (Except.ok (), { tbl2 with last_update := now, total_updates := tbl2.total_updates + 1 })

/-- RoutingTable::remove_route. Returns Ok(()) in both the found and the
not-found case, exactly as the Rust code does. -/
def RoutingTable.remove_route (tbl : RoutingTable) (destination : String) (now : Nat) :
    Except String Unit × RoutingTable :=
  match assocGet tbl.routes destination with
  | some route =>
      let tbl1 := { tbl with routes := assocRemove tbl.routes destination }
      let tbl2 := { tbl1 with
          protocol_counts := decCount tbl1.protocol_counts route.protocol,
          interface_counts := decCount tbl1.interface_counts route.interface }
      (Except.ok (), { tbl2 with last_update := now, total_updates := tbl2.total_updates + 1 })
  | none => (Except.ok (), tbl)

/-- RoutingTable::get_route. -/
def RoutingTable.get_route (tbl : RoutingTable) (destination : String) : Option Route :=
  assocGet tbl.routes destination

/-- RoutingTable::matches_ipv4_network. dest and network are u32 values
(the parser only produces values below 2 ^ 32). -/
def matches_ipv4_network (dest network : Nat) (prefix_len : Nat) : Bool :=
  if 32 < prefix_len then false
  else
    let mask := if prefix_len = 0 then 0 else 2 ^ 32 - 2 ^ (32 - prefix_len)
    decide (dest &&& mask = network &&& mask)

/-- RoutingTable::matches_ipv6_network over the 16 octets. -/
def matches_ipv6_network (dest network : List Nat) (prefix_len : Nat) : Bool :=
  if 128 < prefix_len then false
  else
    let full_bytes := prefix_len / 8
    let remaining_bits := prefix_len % 8
    let full_ok := (List.range full_bytes).all
      (fun i => decide (dest.getD i 0 = network.getD i 0))
    let rem_ok :=
      if 0 < remaining_bits ∧ full_bytes < 16 then
        let mask := (255 <<< (8 - remaining_bits)) % 256
        decide ((dest.getD full_bytes 0) &&& mask = (network.getD full_bytes 0) &&& mask)
      else true
    full_ok && rem_ok

/-- RoutingTable::matches_destination: split "net/len", parse both parts,
require the same address family. -/
def matches_destination (dest_ip : IpAddr) (route_dest : String) : Bool :=
  match splitOnChar '/' route_dest.data with
  | [addr_part, len_part] =>
      match IpAddr.from_chars addr_part, parseU8 len_part with
      | some network_addr, some prefix_len =>
          match dest_ip, network_addr with
          | IpAddr.v4 dest, IpAddr.v4 net => matches_ipv4_network dest net prefix_len
          | IpAddr.v6 dest, IpAddr.v6 net => matches_ipv6_network dest net prefix_len
          | _, _ => false
      | _, _ => false
  | _ => false

/-- The loop body of RoutingTable::find_best_route: best starts at none with
best_metric = u32::MAX; an active matching route with a strictly smaller
metric replaces the current best. -/
def best_route_loop (dest_addr : IpAddr) :
    List Route → Option Route → Nat → Option Route
  | [], best, _ => best
  | route :: rest, best, best_metric =>
      if route.is_active = true ∧ matches_destination dest_addr route.destination = true ∧
          route.metric < best_metric
      then best_route_loop dest_addr rest (some route) route.metric
      else best_route_loop dest_addr rest best best_metric

/-- RoutingTable::find_best_route. -/
def RoutingTable.find_best_route (tbl : RoutingTable) (dest_ip : String) : Option Route :=
  match IpAddr.from_str dest_ip with
  | none => none
  | some dest_addr =>
      best_route_loop dest_addr (tbl.routes.map Prod.snd) none (2 ^ 32 - 1)

/-! ## memory_pool.rs : PacketBuffer and MemoryPool

Instants are natural numbers counting seconds (cleanup and return_packet
compare against Duration::from_secs bounds). Instant arithmetic saturates
at zero, matching std::time::Instant::elapsed.
-/

structure PacketBuffer where
  data : List Nat
  size : Nat
  id : Nat
  created_at : Nat
  last_used : Nat
deriving DecidableEq

/-- PacketBuffer::new: a zero-filled buffer. `now` is Instant::now(). -/
def PacketBuffer.new (size id now : Nat) : PacketBuffer :=
  { data := List.replicate size 0, size := size, id := id,
    created_at := now, last_used := now }

/-- PacketBuffer::resize: Vec::resize grows with zeros (the code only ever
grows); logical size is always set; last_used refreshed. -/
def PacketBuffer.resize (b : PacketBuffer) (new_size now : Nat) : PacketBuffer :=
  let data :=
    if b.data.length < new_size then b.data ++ List.replicate (new_size - b.data.length) 0
    else b.data
  { b with data := data, size := new_size, last_used := now }

/-- PacketBuffer::is_expired: created_at.elapsed() > max_age. -/
def PacketBuffer.is_expired (b : PacketBuffer) (max_age now : Nat) : Bool :=
  decide (max_age < now - b.created_at)

/-- PacketBuffer::is_stale: last_used.elapsed() > max_idle. -/
def PacketBuffer.is_stale (b : PacketBuffer) (max_idle now : Nat) : Bool :=
  decide (max_idle < now - b.last_used)

structure MemoryPool where
  buffers : List PacketBuffer
  buffer_size : Nat
  max_pool_size : Nat
  created_buffers : Nat
  total_allocations : Nat
  total_deallocations : Nat
deriving DecidableEq

def MemoryPool.new (max_pool_size buffer_size : Nat) : MemoryPool :=
  { buffers := [], buffer_size := buffer_size, max_pool_size := max_pool_size,
    created_buffers := 0, total_allocations := 0, total_deallocations := 0 }

/-- VecDeque::iter().position + VecDeque::remove: the first buffer
satisfying the predicate together with the remaining deque, order kept. -/
def extractFirst (pred : PacketBuffer → Bool) :
    List PacketBuffer → Option (PacketBuffer × List PacketBuffer)
  | [] => none
  | b :: rest =>
      if pred b then some (b, rest)
      else
        match extractFirst pred rest with
        | some (x, l) => some (x, b :: l)
        | none => none

/-- MemoryPool::get_packet. The Rust Result is always Ok, so the model
returns the buffer and the post-state directly. `now` is Instant::now(). -/
def MemoryPool.get_packet (p : MemoryPool) (size now : Nat) :
    PacketBuffer × MemoryPool :=
  match extractFirst (fun buf => decide (size ≤ buf.data.length)) p.buffers with
  | some found =>
      let buffer := found.1.resize size now
      let buffer := { buffer with last_used := now }
      (buffer, { p with buffers := found.2,
                        total_allocations := p.total_allocations + 1 })
  | none =>
      let buffer_id := p.created_buffers
      let buffer := PacketBuffer.new (max size p.buffer_size) buffer_id now
      let buffer := buffer.resize size now
      (buffer, { p with created_buffers := p.created_buffers + 1,
                        total_allocations := p.total_allocations + 1 })

/-- MemoryPool::return_packet: discard expired or undersized buffers,
discard when the pool is full, otherwise reset (standard size, zero fill)
and push back; every path counts a deallocation. -/
def MemoryPool.return_packet (p : MemoryPool) (buffer : PacketBuffer) (now : Nat) :
    MemoryPool :=
  if buffer.is_expired 300 now = true ∨ buffer.data.length < p.buffer_size then
    { p with total_deallocations := p.total_deallocations + 1 }
  else if p.max_pool_size ≤ p.buffers.length then
    { p with total_deallocations := p.total_deallocations + 1 }
  else
    let buffer := { buffer with size := p.buffer_size,
                                data := List.replicate buffer.data.length 0,
                                last_used := now }
    { p with buffers := p.buffers ++ [buffer],
             total_deallocations := p.total_deallocations + 1 }

structure PoolStats where
  pool_size : Nat
  max_pool_size : Nat
  buffer_size : Nat
  created_buffers : Nat
  total_allocations : Nat
  total_deallocations : Nat
  active_buffers : Nat
deriving DecidableEq

/-- MemoryPool::get_stats. active_buffers is the usize subtraction
`created - deallocations`; when created < deallocations that subtraction
underflows (panics in a debug build, wraps in release), modelled as none.
The f64-valued derived rates (hit_rate, utilization) are not modelled. -/
def MemoryPool.get_stats (p : MemoryPool) : Option PoolStats :=
  if p.created_buffers < p.total_deallocations then none
  else some
    { pool_size := p.buffers.length, max_pool_size := p.max_pool_size,
      buffer_size := p.buffer_size, created_buffers := p.created_buffers,
      total_allocations := p.total_allocations,
      total_deallocations := p.total_deallocations,
      active_buffers := p.created_buffers - p.total_deallocations }

/-- MemoryPool::cleanup: retain the buffers that are neither expired
(max age 300 s) nor stale (max idle 60 s). -/
def MemoryPool.cleanup (p : MemoryPool) (now : Nat) : MemoryPool :=
  { p with buffers :=
      p.buffers.filter (fun buf => !(buf.is_expired 300 now) && !(buf.is_stale 60 now)) }

/-- A sequential trace of pool operations (the pool is mutex-guarded, so
any concurrent history linearizes to such a trace). -/
inductive PoolOp : Type
  | get (size : Nat) (now : Nat)
  | ret (buffer : PacketBuffer) (now : Nat)
deriving DecidableEq

def runOps (p : MemoryPool) : List PoolOp → MemoryPool
  | [] => p
  | PoolOp.get s now :: rest => runOps (MemoryPool.get_packet p s now).2 rest
  | PoolOp.ret b now :: rest => runOps (MemoryPool.return_packet p b now) rest

/-! ## metrics.rs : MetricsCollector

All counters are u64 atomics; fetch_add wraps modulo 2 ^ 64. The CAS retry
loops for max/min are modelled by their sequential effect. Wall-clock
fields of the snapshot (uptime, f64 rates, cpu/memory usage) are omitted:
they derive from Instant::now and floating point, and no claim needs them.
-/

structure MetricsCollector where
  packets_processed : Nat
  bytes_processed : Nat
  packets_dropped : Nat
  packets_forwarded : Nat
  packets_routed : Nat
  errors : Nat
  latency_sum : Nat
  latency_count : Nat
  max_latency : Nat
  min_latency : Nat
deriving DecidableEq

def MetricsCollector.new : MetricsCollector :=
  { packets_processed := 0, bytes_processed := 0, packets_dropped := 0,
    packets_forwarded := 0, packets_routed := 0, errors := 0,
    latency_sum := 0, latency_count := 0, max_latency := 0, min_latency := 0 }

def MetricsCollector.record_packet_processed (m : MetricsCollector) (size : Nat) :
    MetricsCollector :=
  { m with packets_processed := (m.packets_processed + 1) % 2 ^ 64,
           bytes_processed := (m.bytes_processed + size) % 2 ^ 64 }

def MetricsCollector.record_packet_dropped (m : MetricsCollector) : MetricsCollector :=
  { m with packets_dropped := (m.packets_dropped + 1) % 2 ^ 64 }

def MetricsCollector.record_packet_forwarded (m : MetricsCollector) : MetricsCollector :=
  { m with packets_forwarded := (m.packets_forwarded + 1) % 2 ^ 64 }

def MetricsCollector.record_packet_routed (m : MetricsCollector) : MetricsCollector :=
  { m with packets_routed := (m.packets_routed + 1) % 2 ^ 64 }

def MetricsCollector.record_error (m : MetricsCollector) : MetricsCollector :=
  { m with errors := (m.errors + 1) % 2 ^ 64 }

/-- MetricsCollector::record_latency. The max loop replaces max_latency
when the sample is larger. The min loop breaks immediately when
min_latency is 0 or the sample is not smaller, so a 0 value is never
replaced — the sequential effect is written exactly as the loop behaves. -/
def MetricsCollector.record_latency (m : MetricsCollector) (latency_ns : Nat) :
    MetricsCollector :=
  let m := { m with latency_sum := (m.latency_sum + latency_ns) % 2 ^ 64,
                    latency_count := (m.latency_count + 1) % 2 ^ 64 }
  let m := if m.max_latency < latency_ns then { m with max_latency := latency_ns } else m
  if m.min_latency = 0 ∨ m.min_latency ≤ latency_ns then m
  else { m with min_latency := latency_ns }

/-- The integer fields of the Metrics snapshot. -/
structure Metrics where
  packets_processed : Nat
  bytes_processed : Nat
  packets_dropped : Nat
  packets_forwarded : Nat
  packets_routed : Nat
  errors : Nat
  average_latency_ns : Nat
  max_latency_ns : Nat
  min_latency_ns : Nat
deriving DecidableEq

/-- MetricsCollector::get_metrics: average is u64 integer division of the
accumulated sum by the count (0 when no samples). -/
def MetricsCollector.get_metrics (m : MetricsCollector) : Metrics :=
  { packets_processed := m.packets_processed, bytes_processed := m.bytes_processed,
    packets_dropped := m.packets_dropped, packets_forwarded := m.packets_forwarded,
    packets_routed := m.packets_routed, errors := m.errors,
    average_latency_ns := if 0 < m.latency_count then m.latency_sum / m.latency_count else 0,
    max_latency_ns := m.max_latency, min_latency_ns := m.min_latency }

/-! ## analytics.rs : AnalyticsEngine flow table

The flow table is the RwLock-guarded HashMap<String, TrafficFlow>; the
claims concern only this table, so the engine state is the table itself.
Instants are explicit Nat parameters; tokio Instant::duration_since
saturates at zero, as Nat subtraction does.
-/

structure TrafficFlow where
  flow_id : String
  source_ip : String
  destination_ip : String
  source_port : Nat
  destination_port : Nat
  protocol : Nat
  packet_count : Nat
  byte_count : Nat
  first_seen : Nat
  last_seen : Nat
  application : String
  dscp : Nat
  is_encrypted : Bool
  traffic_class : String
deriving DecidableEq

/-- AnalyticsEngine::generate_flow_id. -/
def AnalyticsEngine.generate_flow_id (source_ip destination_ip : String)
    (source_port destination_port protocol : Nat) : String :=
  source_ip ++ ":" ++ destination_ip ++ ":" ++ toString source_port ++ ":" ++
    toString destination_port ++ ":" ++ toString protocol

/-- AnalyticsEngine::detect_application. -/
def AnalyticsEngine.detect_application (protocol port : Nat) : String :=
  match protocol with
  | 6 =>
      match port with
      | 80 => "HTTP" | 443 => "HTTPS" | 22 => "SSH" | 23 => "Telnet"
      | 25 => "SMTP" | 53 => "DNS" | 110 => "POP3" | 143 => "IMAP"
      | 993 => "IMAPS" | 995 => "POP3S" | 3389 => "RDP" | 5900 => "VNC"
      | _ => "TCP"
  | 17 =>
      match port with
      | 53 => "DNS" | 67 => "DHCP" | 68 => "DHCP" | 123 => "NTP"
      | 161 => "SNMP" | 162 => "SNMP" | 500 => "IKE" | 4500 => "IPsec"
      | _ => "UDP"
  | 1 => "ICMP"
  | 2 => "IGMP"
  | 41 => "IPv6"
  | 47 => "GRE"
  | 50 => "ESP"
  | 51 => "AH"
  | 89 => "OSPF"
  | _ => "Unknown"

/-- AnalyticsEngine::classify_traffic (the protocol argument is unused by
the Rust body as well). -/
def AnalyticsEngine.classify_traffic (dscp protocol : Nat) : String :=
  match dscp with
  | 0 => "Best Effort"
  | 10 => "AF11" | 12 => "AF12" | 14 => "AF13"
  | 18 => "AF21" | 20 => "AF22" | 22 => "AF23"
  | 26 => "AF31" | 28 => "AF32" | 30 => "AF33"
  | 34 => "AF41" | 36 => "AF42" | 38 => "AF43"
  | 46 => "EF" | 48 => "CS6" | 56 => "CS7"
  | _ => "Unknown"

/-- AnalyticsEngine::process_packet, acting on the flow table. A packet of
an existing 5-tuple increments the counters in place (u64 wrap-around);
the first packet of a 5-tuple inserts a fresh flow labelled from
(protocol, destination_port). The Rust Result is always Ok. -/
def AnalyticsEngine.process_packet (flows : List (String × TrafficFlow))
    (source_ip destination_ip : String)
    (source_port destination_port protocol packet_size dscp : Nat)
    (is_encrypted : Bool) (now : Nat) : List (String × TrafficFlow) :=
  let flow_id := AnalyticsEngine.generate_flow_id source_ip destination_ip
    source_port destination_port protocol
  match assocGet flows flow_id with
  | some _ =>
      assocUpdate flows flow_id (fun flow =>
        { flow with packet_count := (flow.packet_count + 1) % 2 ^ 64,
                    byte_count := (flow.byte_count + packet_size) % 2 ^ 64,
                    last_seen := now })
  | none =>
      assocInsert flows flow_id
        { flow_id := flow_id, source_ip := source_ip, destination_ip := destination_ip,
          source_port := source_port, destination_port := destination_port,
          protocol := protocol, packet_count := 1, byte_count := packet_size,
          first_seen := now, last_seen := now,
          application := AnalyticsEngine.detect_application protocol destination_port,
          dscp := dscp, is_encrypted := is_encrypted,
          traffic_class := AnalyticsEngine.classify_traffic dscp protocol }

/-- AnalyticsEngine::cleanup_old_flows: retain flows whose idle time
(now - last_seen, saturating) is strictly below max_age. -/
def AnalyticsEngine.cleanup_old_flows (flows : List (String × TrafficFlow))
    (max_age now : Nat) : List (String × TrafficFlow) :=
  flows.filter (fun kf => decide (now - kf.2.last_seen < max_age))

/-! ## Helper lemmas -/

theorem assocGet_assocInsert_self {β : Type} (l : List (String × β)) (k : String) (v : β) :
    assocGet (assocInsert l k v) k = some v := by
  induction l with
  | nil => simp [assocInsert, assocGet]
  | cons hd tl ih =>
      obtain ⟨a, b⟩ := hd
      by_cases hk : a = k
      · simp [assocInsert, hk, assocGet]
      · simp [assocInsert, hk, assocGet, ih]

theorem best_route_loop_nil (d : IpAddr) (best : Option Route) (bm : Nat) :
    best_route_loop d [] best bm = best := rfl

theorem best_route_loop_cons_pos (d : IpAddr) (r : Route) (rest : List Route)
    (best : Option Route) (bm : Nat)
    (h : r.is_active = true ∧ matches_destination d r.destination = true ∧ r.metric < bm) :
    best_route_loop d (r :: rest) best bm = best_route_loop d rest (some r) r.metric := by
  simp only [best_route_loop]
  rw [if_pos h]

theorem best_route_loop_cons_neg (d : IpAddr) (r : Route) (rest : List Route)
    (best : Option Route) (bm : Nat)
    (h : ¬(r.is_active = true ∧ matches_destination d r.destination = true ∧ r.metric < bm)) :
    best_route_loop d (r :: rest) best bm = best_route_loop d rest best bm := by
  simp only [best_route_loop]
  rw [if_neg h]

/-! ## Claim C1 -/

def c1_default_route (metric : Nat) : Route :=
  Route.new "0.0.0.0/0" "192.168.1.1" "eth0" 0 metric "static"

def c1_spec_route (metric : Nat) : Route :=
  Route.new "10.0.0.0/24" "192.168.1.1" "eth0" 24 metric "static"

/-- A table holding a default route (metric md) and a specific /24 route
(metric ms), built through add_route as in the spec scenario. -/
def c1_table (md ms : Nat) : RoutingTable :=
  (RoutingTable.add_route
    (RoutingTable.add_route RoutingTable.new (c1_default_route md) 0).2
    (c1_spec_route ms) 1).2

/-- Claim C1, counterexample. The claim says that in a table holding a
specific prefix route and a default route, a lookup inside the specific
prefix returns the specific route, metric being only a tie-break. With
the default at metric 1 and the specific /24 at metric 100, find_best_route
for 10.0.0.5 (inside 10.0.0.0/24) returns the default route instead: the
code selects the lowest metric among all matching routes and never
compares prefix lengths. -/
theorem c1_lpm_cex :
    RoutingTable.find_best_route (c1_table 1 100) "10.0.0.5" = some (c1_default_route 1) ∧
    c1_default_route 1 ≠ c1_spec_route 100 := ⟨rfl, by decide⟩

/-- Claim C1, amended: find_best_route returns the lowest-metric active
matching route, with prefix length playing no part beyond matching. So in
a table with a default route and a specific /24 route, lookups inside the
specific prefix return the specific route exactly when its metric is
lower than the default's (metric below u32::MAX), and destinations
matching only the default return the default route. -/
theorem c1_lpm_lowest_metric (ms md : Nat) (h1 : ms < md) (h2 : md < 2 ^ 32 - 1) :
    RoutingTable.find_best_route (c1_table md ms) "10.0.0.5" = some (c1_spec_route ms) ∧
    RoutingTable.find_best_route (c1_table md ms) "192.168.1.7" = some (c1_default_route md) := by
  have hA : (c1_default_route md).is_active = true ∧
      matches_destination (IpAddr.v4 167772165) (c1_default_route md).destination = true ∧
      (c1_default_route md).metric < 2 ^ 32 - 1 := ⟨rfl, rfl, h2⟩
  have hB : (c1_spec_route ms).is_active = true ∧
      matches_destination (IpAddr.v4 167772165) (c1_spec_route ms).destination = true ∧
      (c1_spec_route ms).metric < (c1_default_route md).metric := ⟨rfl, rfl, h1⟩
  have hC : (c1_default_route md).is_active = true ∧
      matches_destination (IpAddr.v4 3232235783) (c1_default_route md).destination = true ∧
      (c1_default_route md).metric < 2 ^ 32 - 1 := ⟨rfl, rfl, h2⟩
  have hD : ¬((c1_spec_route ms).is_active = true ∧
      matches_destination (IpAddr.v4 3232235783) (c1_spec_route ms).destination = true ∧
      (c1_spec_route ms).metric < (c1_default_route md).metric) := by
    intro hx
    have hm : matches_destination (IpAddr.v4 3232235783) "10.0.0.0/24" = true := hx.2.1
    exact absurd hm (by decide)
  constructor
  · show best_route_loop (IpAddr.v4 167772165) [c1_default_route md, c1_spec_route ms]
      none (2 ^ 32 - 1) = some (c1_spec_route ms)
    rw [best_route_loop_cons_pos _ _ _ _ _ hA, best_route_loop_cons_pos _ _ _ _ _ hB,
        best_route_loop_nil]
  · show best_route_loop (IpAddr.v4 3232235783) [c1_default_route md, c1_spec_route ms]
      none (2 ^ 32 - 1) = some (c1_default_route md)
    rw [best_route_loop_cons_pos _ _ _ _ _ hC, best_route_loop_cons_neg _ _ _ _ _ hD,
        best_route_loop_nil]

/-- Witness for c1_lpm_lowest_metric at ms = 1, md = 100. -/
theorem c1_lpm_lowest_metric_witness :
    RoutingTable.find_best_route (c1_table 100 1) "10.0.0.5" = some (c1_spec_route 1) ∧
    RoutingTable.find_best_route (c1_table 100 1) "192.168.1.7" = some (c1_default_route 100) :=
  c1_lpm_lowest_metric 1 100 (by decide) (by decide)

/-! ## Claim C4 -/

def c4_r1 : Route := Route.new "10.0.0.0/24" "192.168.1.1" "eth0" 24 1 "static"

def c4_r2 : Route := Route.new "10.0.0.0/24" "192.168.1.1" "eth0" 24 5 "static"

def c4_t2 : RoutingTable :=
  (RoutingTable.add_route (RoutingTable.add_route RoutingTable.new c4_r1 0).2 c4_r2 1).2

/-- Claim C4, counterexample. The claim says re-adding a route under an
existing key with a worse (higher) metric is a no-op. Adding metric 1 and
then re-adding the same key with metric 5 stores the metric-5 route:
add_route inserts unconditionally and never compares metrics. -/
theorem c4_worse_metric_replaces :
    RoutingTable.get_route c4_t2 "10.0.0.0/24" = some c4_r2 ∧ c4_r2 ≠ c4_r1 :=
  ⟨rfl, by decide⟩

/-- Claim C4, amended: re-adding any route that passes validation under an
existing (or fresh) key always succeeds and replaces the stored route —
last write wins, whether the new metric is better or worse. -/
theorem c4_add_route_last_write_wins (tbl : RoutingTable) (route : Route) (now : Nat)
    (h : RoutingTable.validate_route route = Except.ok ()) :
    (RoutingTable.add_route tbl route now).1 = Except.ok () ∧
    RoutingTable.get_route (RoutingTable.add_route tbl route now).2 route.destination =
      some route := by
  unfold RoutingTable.add_route RoutingTable.get_route
  rw [h]
  constructor
  · rfl
  · by_cases hold : assocGet tbl.routes route.destination = none
    · dsimp only
      rw [if_pos hold]
      exact assocGet_assocInsert_self tbl.routes route.destination route
    · dsimp only
      rw [if_neg hold]
      exact assocGet_assocInsert_self tbl.routes route.destination route

/-- Witness for c4_add_route_last_write_wins: re-adding c4_r1 (metric 1)
over c4_t2 (which stores c4_r2, metric 5) replaces the stored route. -/
theorem c4_add_route_last_write_wins_witness :
    (RoutingTable.add_route c4_t2 c4_r1 2).1 = Except.ok () ∧
    RoutingTable.get_route (RoutingTable.add_route c4_t2 c4_r1 2).2 c4_r1.destination =
      some c4_r1 :=
  c4_add_route_last_write_wins c4_t2 c4_r1 2 rfl

/-! ## Claim C6 -/

def c6_route : Route := Route.new "10.0.0.0/24" "192.168.1.1" "eth0" 24 1 "static"

def c6_table : RoutingTable := (RoutingTable.add_route RoutingTable.new c6_route 0).2

/-- Claim C6, counterexample. The claim says removing a nonexistent route
returns a negative result distinguishable from a successful removal.
remove_route returns Ok(()) both when the route is absent and when a
route is actually removed (third conjunct shows the second call did
remove), so the caller cannot tell the two apart. -/
theorem c6_remove_not_distinguishable :
    (RoutingTable.remove_route RoutingTable.new "10.0.0.0/24" 5).1 = Except.ok () ∧
    (RoutingTable.remove_route c6_table "10.0.0.0/24" 5).1 = Except.ok () ∧
    (RoutingTable.remove_route c6_table "10.0.0.0/24" 5).2.routes = [] :=
  ⟨rfl, rfl, rfl⟩

/-- Claim C6, amended: removing a nonexistent route leaves the entire
routing-table state unchanged (route map, protocol and interface counts,
last-update timestamp, update counter), but its return value is Ok(()),
indistinguishable from a successful removal. -/
theorem c6_remove_missing_no_mutation (tbl : RoutingTable) (destination : String)
    (now : Nat) (h : assocGet tbl.routes destination = none) :
    RoutingTable.remove_route tbl destination now = (Except.ok (), tbl) := by
  unfold RoutingTable.remove_route
  rw [h]

/-- Witness for c6_remove_missing_no_mutation on a concrete table. -/
theorem c6_remove_missing_no_mutation_witness :
    RoutingTable.remove_route c6_table "192.168.0.0/16" 9 = (Except.ok (), c6_table) :=
  c6_remove_missing_no_mutation c6_table "192.168.0.0/16" 9 rfl

/-! ## Claim C8 -/

/-- Claim C8: add_route rejects every route with an empty destination,
gateway, interface or protocol, or a prefix length above 128, returning an
error synchronously and leaving the routing-table state untouched. -/
theorem c8_validation_rejects (tbl : RoutingTable) (route : Route) (now : Nat)
    (h : route.destination = "" ∨ route.gateway = "" ∨ route.interface = "" ∨
        route.protocol = "" ∨ 128 < route.prefix_length) :
    (∃ e, (RoutingTable.add_route tbl route now).1 = Except.error e) ∧
    (RoutingTable.add_route tbl route now).2 = tbl := by
  have hv : ∃ e, RoutingTable.validate_route route = Except.error e := by
    unfold RoutingTable.validate_route
    split_ifs <;> try exact ⟨_, rfl⟩
    rcases h with h | h | h | h | h <;> contradiction
  obtain ⟨e, he⟩ := hv
  constructor
  · exact ⟨e, by unfold RoutingTable.add_route; rw [he]⟩
  · unfold RoutingTable.add_route
    rw [he]

/-- Witness for c8_validation_rejects: a route with an empty gateway. -/
theorem c8_validation_rejects_witness :
    (∃ e, (RoutingTable.add_route RoutingTable.new
        (Route.new "10.0.0.0/24" "" "eth0" 24 1 "static") 7).1 = Except.error e) ∧
    (RoutingTable.add_route RoutingTable.new
        (Route.new "10.0.0.0/24" "" "eth0" 24 1 "static") 7).2 = RoutingTable.new :=
  c8_validation_rejects RoutingTable.new (Route.new "10.0.0.0/24" "" "eth0" 24 1 "static") 7
    (Or.inr (Or.inl rfl))

/-! ## Claim C2 -/

def c2_collector : MetricsCollector :=
  MetricsCollector.record_latency (MetricsCollector.record_latency MetricsCollector.new 1000) 2000

/-- Claim C2: recording latencies 1000 then 2000 on a fresh collector.
The snapshot shows average_latency_ns = 1500 and max_latency_ns = 2000 as
claimed, but min_latency_ns is 0, not 1000: the min CAS loop breaks as
soon as the current minimum is 0, so the initial 0 sentinel is never
replaced. The repository's own test test_metrics_recording asserts
min_latency_ns = 1000 for this very input, so this is a code bug. -/
theorem c2_latency_snapshot_min_zero :
    (MetricsCollector.get_metrics c2_collector).average_latency_ns = 1500 ∧
    (MetricsCollector.get_metrics c2_collector).max_latency_ns = 2000 ∧
    (MetricsCollector.get_metrics c2_collector).min_latency_ns = 0 ∧
    (MetricsCollector.get_metrics c2_collector).min_latency_ns ≠ 1000 := by decide

/-! ## Claim C3 -/

def c3_key : String := "192.168.1.1:192.168.1.2:80:8080:6"

def c3_flows1 : List (String × TrafficFlow) :=
  AnalyticsEngine.process_packet [] "192.168.1.1" "192.168.1.2" 80 8080 6 1500 0 false 0

def c3_flows2 : List (String × TrafficFlow) :=
  AnalyticsEngine.process_packet c3_flows1 "192.168.1.1" "192.168.1.2" 80 8080 6 1500 0 false 1

def c3_flows3 : List (String × TrafficFlow) :=
  AnalyticsEngine.process_packet c3_flows2 "192.168.1.1" "192.168.1.2" 80 443 6 1500 0 false 2

/-- Claim C3: two TCP packets with src_port 80, dst_port 8080, size 1500
between the same two IPs yield exactly one flow with packet_count 2 and
byte_count 3000 (a third packet with a different 5-tuple yields a second
entry) — the aggregation part of the claim holds. The application label,
however, is "TCP", not "HTTP": the code labels from
detect_application(protocol, destination_port) and 8080 is not a known
TCP port, while the repository's own test test_application_detection
asserts "HTTP" for the same input. -/
theorem c3_flow_aggregation_label :
    c3_flows2.length = 1 ∧
    (assocGet c3_flows2 c3_key).map
      (fun f => (f.packet_count, f.byte_count, f.application)) = some (2, 3000, "TCP") ∧
    c3_flows3.length = 2 := by decide

/-! ## Claim C9 -/

/-- Claim C9: after a cleanup pass, a flow entry is in the table exactly
when it was there before with idle time (now - last_seen) strictly below
the timeout; surviving entries are identical flows (counters unchanged),
and every flow idle for at least the timeout is gone. -/
theorem c9_flow_eviction (flows : List (String × TrafficFlow)) (max_age now : Nat)
    (k : String) (f : TrafficFlow) :
    ((k, f) ∈ AnalyticsEngine.cleanup_old_flows flows max_age now →
        (k, f) ∈ flows ∧ now - f.last_seen < max_age) ∧
    ((k, f) ∈ flows → now - f.last_seen < max_age →
        (k, f) ∈ AnalyticsEngine.cleanup_old_flows flows max_age now) := by
  unfold AnalyticsEngine.cleanup_old_flows
  constructor
  · intro h
    have h2 := List.mem_filter.mp h
    refine ⟨h2.1, ?_⟩
    simpa using h2.2
  · intro h1 h2
    exact List.mem_filter.mpr ⟨h1, by simpa using h2⟩

def c9_flow_fresh : TrafficFlow :=
  { flow_id := "a", source_ip := "s", destination_ip := "d", source_port := 1,
    destination_port := 2, protocol := 6, packet_count := 3, byte_count := 100,
    first_seen := 0, last_seen := 350, application := "TCP", dscp := 0,
    is_encrypted := false, traffic_class := "Best Effort" }

def c9_flow_old : TrafficFlow :=
  { flow_id := "b", source_ip := "s", destination_ip := "d", source_port := 1,
    destination_port := 3, protocol := 6, packet_count := 9, byte_count := 900,
    first_seen := 0, last_seen := 10, application := "TCP", dscp := 0,
    is_encrypted := false, traffic_class := "Best Effort" }

def c9_flows : List (String × TrafficFlow) := [("a", c9_flow_fresh), ("b", c9_flow_old)]

/-- Witness for c9_flow_eviction: the recently seen flow survives a
cleanup at time 400 with a 300-unit timeout. -/
theorem c9_flow_eviction_witness :
    ("a", c9_flow_fresh) ∈ AnalyticsEngine.cleanup_old_flows c9_flows 300 400 :=
  (c9_flow_eviction c9_flows 300 400 "a" c9_flow_fresh).2 (by decide) (by decide)

/-! ## Claim C5 -/

def c5_buf : PacketBuffer :=
  { data := [], size := 0, id := 7, created_at := 0, last_used := 400 }

def c5_pool : MemoryPool :=
  { buffers := [c5_buf], buffer_size := 1500, max_pool_size := 10,
    created_buffers := 1, total_allocations := 1, total_deallocations := 0 }

/-- Claim C5, counterexample. The claim says a buffer that is aged-out but
recently used (only one of the two conditions) remains in the pool after
cleanup. c5_buf at time 400 is expired (age 400 > 300) yet not stale
(idle 0 ≤ 60), and cleanup still evicts it: the code retains only buffers
that are neither expired nor stale, i.e. it evicts on either condition,
not on the conjunction. -/
theorem c5_cleanup_cex :
    c5_buf.is_expired 300 400 = true ∧ c5_buf.is_stale 60 400 = false ∧
    (MemoryPool.cleanup c5_pool 400).buffers = [] := by decide

/-- Claim C5, amended: cleanup evicts exactly the buffers that are
aged-out or idle past the threshold — a buffer survives a cleanup pass at
time now if and only if it was pooled and is neither expired (age 300)
nor stale (idle 60). -/
theorem c5_cleanup_removes_expired_or_stale (p : MemoryPool) (now : Nat)
    (buf : PacketBuffer) :
    (buf ∈ (MemoryPool.cleanup p now).buffers →
        buf ∈ p.buffers ∧ buf.is_expired 300 now = false ∧ buf.is_stale 60 now = false) ∧
    (buf ∈ p.buffers → buf.is_expired 300 now = false → buf.is_stale 60 now = false →
        buf ∈ (MemoryPool.cleanup p now).buffers) := by
  unfold MemoryPool.cleanup
  constructor
  · intro h
    have h2 := List.mem_filter.mp h
    have h3 := h2.2
    simp only [Bool.and_eq_true, Bool.not_eq_true'] at h3
    exact ⟨h2.1, h3.1, h3.2⟩
  · intro h1 h2 h3
    refine List.mem_filter.mpr ⟨h1, ?_⟩
    simp [h2, h3]

def c5_fresh_buf : PacketBuffer :=
  { data := [], size := 0, id := 1, created_at := 350, last_used := 380 }

def c5_pool2 : MemoryPool :=
  { buffers := [c5_fresh_buf], buffer_size := 1500, max_pool_size := 10,
    created_buffers := 1, total_allocations := 1, total_deallocations := 0 }

/-- Witness for c5_cleanup_removes_expired_or_stale: a buffer that is
neither expired nor stale at time 400 survives the sweep. -/
theorem c5_cleanup_removes_expired_or_stale_witness :
    c5_fresh_buf ∈ (MemoryPool.cleanup c5_pool2 400).buffers :=
  (c5_cleanup_removes_expired_or_stale c5_pool2 400 c5_fresh_buf).2
    (by decide) (by decide) (by decide)

/-! ## Claim C7 -/

theorem extractFirst_length (pred : PacketBuffer → Bool) :
    ∀ (l : List PacketBuffer) (b : PacketBuffer) (rest : List PacketBuffer),
      extractFirst pred l = some (b, rest) → rest.length + 1 = l.length := by
  intro l
  induction l with
  | nil => intro b rest h; simp [extractFirst] at h
  | cons hd tl ih =>
      intro b rest h
      unfold extractFirst at h
      by_cases hp : pred hd
      · rw [if_pos hp] at h
        simp only [Option.some.injEq, Prod.mk.injEq] at h
        rw [← h.2]
        simp
      · rw [if_neg hp] at h
        cases he : extractFirst pred tl with
        | none => rw [he] at h; simp at h
        | some pr =>
            obtain ⟨x, l2⟩ := pr
            rw [he] at h
            simp only [Option.some.injEq, Prod.mk.injEq] at h
            have hlen := ih x l2 he
            rw [← h.2]
            simp only [List.length_cons]
            omega

theorem get_packet_buffers_le (p : MemoryPool) (size now : Nat) :
    (MemoryPool.get_packet p size now).2.buffers.length ≤ p.buffers.length := by
  unfold MemoryPool.get_packet
  cases he : extractFirst (fun buf => decide (size ≤ buf.data.length)) p.buffers with
  | none => simp
  | some found =>
      have hlen := extractFirst_length _ p.buffers found.1 found.2 (by rw [he])
      simp only
      omega

theorem get_packet_max_eq (p : MemoryPool) (size now : Nat) :
    (MemoryPool.get_packet p size now).2.max_pool_size = p.max_pool_size := by
  unfold MemoryPool.get_packet
  cases he : extractFirst (fun buf => decide (size ≤ buf.data.length)) p.buffers with
  | none => rfl
  | some found => rfl

theorem return_packet_buffers_le (p : MemoryPool) (buf : PacketBuffer) (now : Nat)
    (h : p.buffers.length ≤ p.max_pool_size) :
    (MemoryPool.return_packet p buf now).buffers.length ≤ p.max_pool_size := by
  unfold MemoryPool.return_packet
  split_ifs with h1 h2
  · exact h
  · exact h
  · simp only [List.length_append, List.length_cons, List.length_nil]
    omega

theorem return_packet_max_eq (p : MemoryPool) (buf : PacketBuffer) (now : Nat) :
    (MemoryPool.return_packet p buf now).max_pool_size = p.max_pool_size := by
  unfold MemoryPool.return_packet
  split_ifs <;> rfl

theorem runOps_max_eq (ops : List PoolOp) :
    ∀ (p : MemoryPool), (runOps p ops).max_pool_size = p.max_pool_size := by
  induction ops with
  | nil => intro p; rfl
  | cons op rest ih =>
      intro p
      cases op with
      | get s now =>
          simp only [runOps]
          rw [ih, get_packet_max_eq]
      | ret b now =>
          simp only [runOps]
          rw [ih, return_packet_max_eq]

theorem runOps_buffers_le (ops : List PoolOp) :
    ∀ (p : MemoryPool), p.buffers.length ≤ p.max_pool_size →
      (runOps p ops).buffers.length ≤ (runOps p ops).max_pool_size := by
  induction ops with
  | nil => intro p h; exact h
  | cons op rest ih =>
      intro p h
      cases op with
      | get s now =>
          simp only [runOps]
          apply ih
          rw [get_packet_max_eq]
          exact le_trans (get_packet_buffers_le p s now) h
      | ret b now =>
          simp only [runOps]
          apply ih
          rw [return_packet_max_eq]
          exact return_packet_buffers_le p b now h

/-- Claim C7: after any sequence of get_packet / return_packet calls
starting from a fresh pool, the number of pooled buffers never exceeds
max_pool_size; and a buffer that is expired (older than the 300 s max
age) at release time is never put back into the pool — return_packet
leaves the pooled buffers untouched (the buffer is discarded). -/
theorem c7_pool_invariants :
    (∀ (max_pool_size buffer_size : Nat) (ops : List PoolOp),
        (runOps (MemoryPool.new max_pool_size buffer_size) ops).buffers.length ≤
          max_pool_size) ∧
    (∀ (p : MemoryPool) (buf : PacketBuffer) (now : Nat),
        buf.is_expired 300 now = true →
        (MemoryPool.return_packet p buf now).buffers = p.buffers) := by
  constructor
  · intro mp bs ops
    have h := runOps_buffers_le ops (MemoryPool.new mp bs) (by simp [MemoryPool.new])
    rw [runOps_max_eq] at h
    exact h
  · intro p buf now h
    unfold MemoryPool.return_packet
    rw [if_pos (Or.inl h)]

def c7_old_buf : PacketBuffer :=
  { data := [], size := 0, id := 0, created_at := 0, last_used := 0 }

/-- Witness for c7_pool_invariants: a two-op trace on a fresh pool of
capacity 2, and an expired buffer released at time 400. -/
theorem c7_pool_invariants_witness :
    (runOps (MemoryPool.new 2 1500) [PoolOp.get 100 0, PoolOp.get 200 1]).buffers.length ≤ 2 ∧
    (MemoryPool.return_packet (MemoryPool.new 2 1500) c7_old_buf 400).buffers =
      (MemoryPool.new 2 1500).buffers :=
  ⟨c7_pool_invariants.1 2 1500 [PoolOp.get 100 0, PoolOp.get 200 1],
   c7_pool_invariants.2 (MemoryPool.new 2 1500) c7_old_buf 400 (by decide)⟩

/-! ## Claim C10 -/

def c10_p0 : MemoryPool := MemoryPool.new 10 1500

def c10_s1 : PacketBuffer × MemoryPool := MemoryPool.get_packet c10_p0 1500 0

def c10_p2 : MemoryPool := MemoryPool.return_packet c10_s1.2 c10_s1.1 1

def c10_s3 : PacketBuffer × MemoryPool := MemoryPool.get_packet c10_p2 1500 2

def c10_p4 : MemoryPool := MemoryPool.return_packet c10_s3.2 c10_s3.1 3

set_option maxRecDepth 40000 in
/-- Claim C10: the sequence get_packet(1500); return_packet; get_packet(1500);
return_packet on a fresh MemoryPool::new(10, 1500) leaves created_buffers = 1
(the second allocation is served from the pool and does not increment the
created counter) while total_deallocations = 2 (every release increments it).
get_stats then computes active_buffers as the usize subtraction
created_buffers - total_deallocations with created < deallocations, which
underflows — modelled as none (a panic in a debug build, wrap-around in
release). The claim that get_stats never underflows is therefore wrong
about the code, and the accounting slip (pool hits skip the created
counter while every return counts a deallocation) is plainly unintended. -/
theorem c10_get_stats_underflow :
    c10_p4.created_buffers = 1 ∧ c10_p4.total_deallocations = 2 ∧
    MemoryPool.get_stats c10_p4 = none := by decide
